import Mathlib

/-!
# Verification of `src/script.js` (crypto-currency landing page)

A shallow embedding of the page script in Lean 4.  The script has three
top-level parts, executed in order as a classic (non-module) script:

1. chart setup (lines 1-41): reads the canvas `heroChart`, builds a static
   `Chart` configuration and hands it to the charting library;
2. navigation smoother (lines 44-51): a click listener on every anchor
   whose `href` starts with `#`, which calls `preventDefault` and then
   `querySelector(href).scrollIntoView({behavior: "smooth"})`;
3. reveal-on-scroll controller (lines 53-75): an `IntersectionObserver`
   with threshold `0.1` whose callback adds the class `visible` and sets
   `opacity 1` / `translateY(0)` on every intersecting entry's target, and
   an initialisation loop that hides each animated element
   (`opacity 0`, `translateY(20px)`, armed transition) and observes it.

DOM values are embedded as plain records: an element is its tag, id,
class list, a membership flag for the `.outcomes-list` ancestor selector,
and the three inline style properties the script ever touches.  Event
callbacks become pure functions on a list of elements, and the platform
pieces the script relies on (event dispatch continuing past a throwing
listener, intersection notifications at the configured threshold, a
top-level uncaught exception aborting the rest of a classic script) are
embedded explicitly where a claim needs them.
-/

/-- One color stop of the canvas gradient built at source lines 5-7
(`gradient.addColorStop`). -/
structure ColorStop where
  offset : ℚ
  color : String
deriving Repr, DecidableEq

/-- The vertical gradient for the chart line fill (source lines 5-7). -/
def heroGradient : List ColorStop :=
  [{ offset := 0, color := "rgba(0, 255, 170, 0.5)" },
   { offset := 1, color := "rgba(0, 255, 170, 0)" }]

/-- A dataset entry of the chart configuration (source lines 13-22). -/
structure ChartDataset where
  label : String
  data : List Nat
  borderColor : String
  backgroundColor : List ColorStop
  borderWidth : Nat
  fill : Bool
  tension : ℚ
  pointRadius : Nat
deriving Repr, DecidableEq

/-- The `data` block of the chart configuration (source lines 11-23). -/
structure ChartData where
  labels : List String
  datasets : List ChartDataset
deriving Repr, DecidableEq

/-- An axis options block (source lines 31-32). -/
structure AxisOptions where
  display : Bool
deriving Repr, DecidableEq

/-- The `animation.y` block (source lines 35-38). -/
structure AnimationAxis where
  duration : Nat
  easing : String
deriving Repr, DecidableEq

/-- The `options` block of the chart configuration (source lines 24-40). -/
structure ChartOptions where
  responsive : Bool
  legendDisplay : Bool
  tooltipEnabled : Bool
  xAxis : AxisOptions
  yAxis : AxisOptions
  animationY : AnimationAxis
deriving Repr, DecidableEq

/-- A chart configuration as passed to `new Chart(ctx, ...)`. -/
structure ChartConfig where
  type : String
  data : ChartData
  options : ChartOptions
deriving Repr, DecidableEq

/-- The configuration object handed to the charting library at source
lines 9-41 (`const heroChart = new Chart(ctx, {...})`), field by field. -/
def heroChart : ChartConfig :=
  { type := "line",
    data :=
      { labels := ["Jan", "Feb", "Mar", "Apr", "May", "Jun", "Jul"],
        datasets :=
          [{ label := "Market Volatility Index",
             data := [65, 59, 80, 81, 56, 95, 75],
             borderColor := "#00ffaa",
             backgroundColor := heroGradient,
             borderWidth := 3,
             fill := true,
             tension := 2/5,
             pointRadius := 0 }] },
    options :=
      { responsive := true,
        legendDisplay := false,
        tooltipEnabled := false,
        xAxis := { display := false },
        yAxis := { display := false },
        animationY := { duration := 2000, easing := "easeInOutQuart" } } }

/-- The inline style properties the script reads or writes
(`el.style.opacity`, `el.style.transform`, `el.style.transition`); `none`
means the property was never set inline. -/
structure Style where
  opacity : Option String := none
  transform : Option String := none
  transition : Option String := none
deriving Repr, DecidableEq, Inhabited

/-- A DOM element as the script sees it: tag name, optional id, class
list, whether it sits below an `.outcomes-list` ancestor (for the
descendant selector at line 69), and its inline style. -/
structure Elem where
  tag : String := "div"
  id : Option String := none
  classes : List String := []
  inOutcomesList : Bool := false
  style : Style := {}
deriving Repr, DecidableEq, Inhabited

/-- `classList.add c`: appends the class if it is not already present
(DOM `DOMTokenList.add` semantics, used at source line 61). -/
def classListAdd (c : String) (cs : List String) : List String :=
  if c ∈ cs then cs else cs ++ [c]

/-- The body of the observer callback applied to one intersecting target
(source lines 61-63): add the class `visible`, set inline opacity to `1`
and inline transform to `translateY(0)`. -/
def revealTarget (el : Elem) : Elem :=
  { el with
    classes := classListAdd "visible" el.classes,
    style := { el.style with opacity := some "1", transform := some "translateY(0)" } }

/-- Apply `f` to the element at index `i` of the document, leaving every
other element (and an out-of-range index) unchanged. -/
def updateAt (i : Nat) (f : Elem → Elem) : List Elem → List Elem
  | [] => []
  | e :: es =>
    match i with
    | 0 => f e :: es
    | n + 1 => e :: updateAt n f es

/-- An intersection notification entry as seen by the callback: the
`isIntersecting` flag it tests, the intersection fraction the platform
reports (`intersectionRatio`), and the index of `entry.target` in the
document. -/
structure IntersectionEntry where
  isIntersecting : Bool
  fraction : ℚ
  target : Nat
deriving Repr, DecidableEq

/-- One iteration of `entries.forEach` in the observer callback (source
lines 59-65): an intersecting entry reveals its target, any other entry
does nothing. -/
def observerStep (doc : List Elem) (entry : IntersectionEntry) : List Elem :=
  if entry.isIntersecting then updateAt entry.target revealTarget doc else doc

/-- The observer callback of source lines 58-66: fold `observerStep` over
the delivered entries. -/
def observerCallback (entries : List IntersectionEntry) (doc : List Elem) : List Elem :=
  entries.foldl observerStep doc

/-- The observer options of source lines 54-56. -/
structure ObserverOptions where
  threshold : ℚ
deriving Repr, DecidableEq

/-- `observerOptions = { threshold: 0.1 }` (source lines 54-56). -/
def observerOptions : ObserverOptions :=
  { threshold := 1/10 }

/-- Platform side of the intersection mechanism: an element whose visible
fraction crosses above the configured threshold is reported to the
callback in an entry with `isIntersecting` true (a fraction above the
positive threshold means the element intersects the viewport); a fraction
that stays at or below the threshold produces no notification, so the
callback does not run for it.  (`IntersectionObserver` with
`observerOptions`.) -/
def notifyAt (i : Nat) (r : ℚ) (doc : List Elem) : List Elem :=
  if observerOptions.threshold < r then
    observerCallback [{ isIntersecting := true, fraction := r, target := i }] doc
  else doc

/-- Does an element match the selector
`.glass-card, .member-card, .outcomes-list li` of source line 69? -/
def animatedMatch (el : Elem) : Bool :=
  el.classes.contains "glass-card" || el.classes.contains "member-card" ||
    (el.tag == "li" && el.inOutcomesList)

/-- The body of the initialisation loop at source lines 71-73: hide the
element (opacity `0`, `translateY(20px)`) and arm its transition. -/
def initHidden (el : Elem) : Elem :=
  { el with
    style :=
      { el.style with
        opacity := some "0",
        transform := some "translateY(20px)",
        transition := some "opacity 0.6s ease-out, transform 0.6s ease-out" } }

/-- The document after the initialisation loop of source lines 70-75:
every element matching `animatedElements` is hidden and armed; nothing
else is touched. -/
def initAnimated (doc : List Elem) : List Elem :=
  doc.map (fun el => if animatedMatch el then initHidden el else el)

/-- The indices handed to `observer.observe` by the loop at source lines
70-75: exactly the elements matching the line-69 selector, in document
order. -/
def observedIndices (doc : List Elem) : List Nat :=
  (List.range doc.length).filter (fun i => animatedMatch (doc.getD i default))

/-- An anchor element matched by `a[href^="#"]` (source line 44): its
`href` attribute, a fragment selector such as `"#features"`. -/
structure Anchor where
  href : String
deriving Repr, DecidableEq

/-- `document.querySelector` restricted to the fragment selectors those
anchors carry: `"#name"` resolves to the index of the first element whose
id is `name`, or to nothing when no element has that id (in which case
the JS value is `null`). -/
def querySelectorIdx (doc : List Elem) (sel : String) : Option Nat :=
  doc.findIdx? (fun el => el.id == some (sel.drop 1))

/-- The mutable part of a click event the handler touches:
whether `preventDefault` has been called. -/
structure ClickEvent where
  defaultPrevented : Bool := false
deriving Repr, DecidableEq

/-- A smooth-scroll request issued by `scrollIntoView` (source lines
47-49): the index of the element scrolled to and the behavior string. -/
structure ScrollAction where
  target : Nat
  behavior : String
deriving Repr, DecidableEq

/-- Outcome of one run of the click listener: either it returned
normally, having issued the given scroll requests, or it threw (the
`TypeError` from calling `scrollIntoView` on `null`).  Both carry the
event state at the moment the handler finished or threw. -/
inductive HandlerResult where
  | ok (e : ClickEvent) (scrolls : List ScrollAction)
  | threw (e : ClickEvent)
deriving Repr, DecidableEq

/-- The click listener of source lines 45-50, statement by statement:
line 46 calls `e.preventDefault()` first; line 47 then resolves
`this.getAttribute("href")` with `querySelector` and calls
`scrollIntoView({behavior: "smooth"})` on the result, which throws when
the selector resolved to `null`. -/
def anchorClick (doc : List Elem) (a : Anchor) (e : ClickEvent) : HandlerResult :=
  let e1 : ClickEvent := { e with defaultPrevented := true }
  match querySelectorIdx doc a.href with
  | some i => .ok e1 [{ target := i, behavior := "smooth" }]
  | none => .threw e1

/-- The page state threaded through click dispatch: the document and the
log of scroll requests issued so far. -/
structure PageState where
  doc : List Elem
  scrollLog : List ScrollAction := []

/-- A listener registered for a click event: either the script's own
smooth-scroll handler for some anchor, or an arbitrary unrelated listener
(modelled as any state transformer). -/
inductive Listener where
  | anchorSmooth (a : Anchor)
  | custom (f : PageState × ClickEvent → PageState × ClickEvent)

/-- Run one listener; the `Bool` reports whether it threw. -/
def runListener : Listener → PageState × ClickEvent → (PageState × ClickEvent) × Bool
  | .anchorSmooth a, (p, e) =>
    match anchorClick p.doc a e with
    | .ok e1 scrolls => (({ p with scrollLog := p.scrollLog ++ scrolls }, e1), false)
    | .threw e1 => ((p, e1), true)
  | .custom f, s => (f s, false)

/-- DOM event dispatch: every registered listener is invoked in order; an
exception thrown by one listener is reported to the host and dispatch
continues with the remaining listeners.  Returns the final state and one
threw-flag per listener. -/
def dispatch : List Listener → PageState × ClickEvent → (PageState × ClickEvent) × List Bool
  | [], s => (s, [])
  | l :: ls, s =>
    let r := runListener l s
    let rest := dispatch ls r.1
    (rest.1, r.2 :: rest.2)

/-- Result of running the whole script top to bottom. -/
structure ScriptResult where
  threw : Bool
  chartCreated : Bool
  navRegistered : Bool
  observed : List Nat
  doc : List Elem
deriving Repr

/-- The whole script as a classic top-level script.  When the canvas
`heroChart` is present, line 2 succeeds, the chart is created (lines
9-41), the anchor listeners are registered (lines 44-51) and the reveal
controller hides and observes the animated elements (lines 53-75).  When
the canvas is absent, `document.getElementById("heroChart")` is `null`
and `.getContext("2d")` at line 2 throws a `TypeError`; an uncaught
top-level exception aborts the rest of a classic script, so none of the
statements after line 2 run: no chart, no anchor listeners, no styling,
no observation. -/
def runScript (hasCanvas : Bool) (doc : List Elem) : ScriptResult :=
  if hasCanvas then
    { threw := false, chartCreated := true, navRegistered := true,
      observed := observedIndices doc, doc := initAnimated doc }
  else
    { threw := true, chartCreated := false, navRegistered := false,
      observed := [], doc := doc }

/-- A one-element document holding a single `glass-card` element. -/
def cardDoc : List Elem :=
  [{ classes := ["glass-card"] }]

/-- A one-element document holding a section with id `features`. -/
def navDoc : List Elem :=
  [{ tag := "section", id := some "features" }]

theorem classListAdd_of_mem (c : String) (cs : List String) (h : c ∈ cs) :
    classListAdd c cs = cs := by
  simp [classListAdd, h]

theorem mem_classListAdd (c : String) (cs : List String) : c ∈ classListAdd c cs := by
  unfold classListAdd
  split
  · assumption
  · simp

theorem classListAdd_idem (c : String) (cs : List String) :
    classListAdd c (classListAdd c cs) = classListAdd c cs :=
  classListAdd_of_mem c _ (mem_classListAdd c cs)

theorem revealTarget_idem (el : Elem) : revealTarget (revealTarget el) = revealTarget el := by
  simp [revealTarget, classListAdd_idem]

theorem updateAt_length (i : Nat) (f : Elem → Elem) (l : List Elem) :
    (updateAt i f l).length = l.length := by
  induction l generalizing i with
  | nil => cases i <;> rfl
  | cons e es ih =>
    cases i with
    | zero => rfl
    | succ n => simp [updateAt, ih]

theorem updateAt_of_ge (i : Nat) (f : Elem → Elem) (l : List Elem) (h : l.length ≤ i) :
    updateAt i f l = l := by
  induction l generalizing i with
  | nil => cases i <;> rfl
  | cons e es ih =>
    cases i with
    | zero => simp at h
    | succ n =>
      simp only [updateAt, List.cons.injEq, true_and]
      exact ih n (by simpa [Nat.succ_le_succ_iff] using h)

theorem getD_updateAt_ne (i j : Nat) (f : Elem → Elem) (l : List Elem) (d : Elem)
    (h : i ≠ j) : (updateAt i f l).getD j d = l.getD j d := by
  induction l generalizing i j with
  | nil => cases i <;> rfl
  | cons e es ih =>
    cases i with
    | zero =>
      cases j with
      | zero => exact absurd rfl h
      | succ m => simp [updateAt]
    | succ n =>
      cases j with
      | zero => simp [updateAt]
      | succ m =>
        simp only [updateAt, List.getD_cons_succ]
        exact ih n m (fun hh => h (by simp [hh]))

theorem getD_updateAt_eq (i : Nat) (f : Elem → Elem) (l : List Elem) (d : Elem)
    (h : i < l.length) : (updateAt i f l).getD i d = f (l.getD i d) := by
  induction l generalizing i with
  | nil => simp at h
  | cons e es ih =>
    cases i with
    | zero => simp [updateAt]
    | succ n =>
      simp only [updateAt, List.getD_cons_succ]
      exact ih n (by simpa [Nat.succ_lt_succ_iff] using h)

theorem updateAt_updateAt (i : Nat) (f g : Elem → Elem) (l : List Elem) :
    updateAt i f (updateAt i g l) = updateAt i (fun e => f (g e)) l := by
  induction l generalizing i with
  | nil => cases i <;> rfl
  | cons e es ih =>
    cases i with
    | zero => rfl
    | succ n => simp [updateAt, ih]

theorem getD_map (g : Elem → Elem) (l : List Elem) (i : Nat) (d : Elem)
    (h : i < l.length) : (l.map g).getD i d = g (l.getD i d) := by
  induction l generalizing i with
  | nil => simp at h
  | cons e es ih =>
    cases i with
    | zero => simp
    | succ n =>
      simp only [List.map_cons, List.getD_cons_succ]
      exact ih n (by simpa [Nat.succ_lt_succ_iff] using h)

theorem dispatch_length (ls : List Listener) (s : PageState × ClickEvent) :
    (dispatch ls s).2.length = ls.length := by
  induction ls generalizing s with
  | nil => rfl
  | cons l ls ih => simp [dispatch, ih]

/-- C5: the dataset handed to the charting library on initialization is
exactly the sequence `[65, 59, 80, 81, 56, 95, 75]`, paired with the
labels `Jan` through `Jul`, in that order. -/
theorem heroChart_dataset_literal :
    heroChart.data.labels = ["Jan", "Feb", "Mar", "Apr", "May", "Jun", "Jul"] ∧
    heroChart.data.datasets.map ChartDataset.data = [[65, 59, 80, 81, 56, 95, 75]] :=
  ⟨rfl, rfl⟩

/-- C1 (counterexample): on a page load where the canvas is missing, the
navigation smoother does NOT register and the reveal controller observes
nothing — even though the document holds a `glass-card` element the
controller would otherwise have observed (index 0) — refuting the claim
that the other two components still register and run normally. -/
theorem script_missingCanvas_cex :
    (runScript false cardDoc).navRegistered = false ∧
    (runScript false cardDoc).observed = [] ∧
    observedIndices cardDoc = [0] ∧
    (runScript false cardDoc).doc = cardDoc := by
  refine ⟨rfl, rfl, by decide, rfl⟩

/-- C1 (amended): if the designated chart canvas element is absent, the
top-level `getContext` access at line 2 throws, and the uncaught
exception aborts the remainder of the classic script: the chart is not
created, and the navigation smoother and the reveal-on-scroll controller
never register — the document keeps its markup state untouched. -/
theorem script_missingCanvas_aborts_all (doc : List Elem) :
    (runScript false doc).threw = true ∧
    (runScript false doc).chartCreated = false ∧
    (runScript false doc).navRegistered = false ∧
    (runScript false doc).observed = [] ∧
    (runScript false doc).doc = doc :=
  ⟨rfl, rfl, rfl, rfl, rfl⟩

/-- C4: with a document holding exactly one observed `glass-card` element
(in its post-load hidden state), an intersection notification with
fraction `0.5` yields opacity `1` and zero vertical offset for that
element, while a notification with fraction `0.05` leaves the document
unchanged. -/
theorem glassCard_scenario :
    ((notifyAt 0 (1/2) (initAnimated cardDoc)).getD 0 default).style.opacity = some "1" ∧
    ((notifyAt 0 (1/2) (initAnimated cardDoc)).getD 0 default).style.transform =
      some "translateY(0)" ∧
    notifyAt 0 (1/20) (initAnimated cardDoc) = initAnimated cardDoc := by
  have h2 : observerOptions.threshold < (1 : ℚ)/2 := by norm_num [observerOptions]
  have h20 : ¬ observerOptions.threshold < (1 : ℚ)/20 := by norm_num [observerOptions]
  refine ⟨?_, ?_, ?_⟩
  · rw [notifyAt, if_pos h2]
    decide
  · rw [notifyAt, if_pos h2]
    decide
  · rw [notifyAt, if_neg h20]

/-- C10: the reveal callback ignores every entry whose element is not
intersecting: the callback's result equals the result of processing only
the intersecting entries, so a non-intersecting entry adds no class and
modifies no style of its element. -/
theorem callback_ignores_nonintersecting (entries : List IntersectionEntry) (doc : List Elem) :
    observerCallback entries doc =
      observerCallback (entries.filter (fun e => e.isIntersecting)) doc := by
  induction entries generalizing doc with
  | nil => rfl
  | cons e es ih =>
    cases h : e.isIntersecting with
    | true =>
      simp only [observerCallback, List.foldl_cons, List.filter_cons, h, if_pos]
      exact ih (observerStep doc e)
    | false =>
      have hstep : observerStep doc e = doc := by simp [observerStep, h]
      simp only [observerCallback, List.foldl_cons, List.filter_cons, h, if_neg, hstep]
      exact ih doc

/-- C6: for an anchor whose fragment target resolves to an element, each
click prevents the default jump navigation and issues exactly one smooth
scroll request toward that target element. -/
theorem anchor_resolved_smooth_once (doc : List Elem) (a : Anchor) (e : ClickEvent) (i : Nat)
    (h : querySelectorIdx doc a.href = some i) :
    anchorClick doc a e =
      .ok { defaultPrevented := true } [{ target := i, behavior := "smooth" }] := by
  simp [anchorClick, h]

/-- Witness for C6 at a concrete page: one section with id `features` and
the anchor `#features`. -/
theorem anchor_resolved_smooth_once_witness :
    querySelectorIdx navDoc "#features" = some 0 ∧
    anchorClick navDoc { href := "#features" } { defaultPrevented := false } =
      .ok { defaultPrevented := true } [{ target := 0, behavior := "smooth" }] :=
  ⟨by decide, anchor_resolved_smooth_once navDoc { href := "#features" }
    { defaultPrevented := false } 0 (by decide)⟩

/-- C9: `preventDefault` runs before the target lookup, so a click on an
anchor with an unresolvable target throws with the default navigation
already suppressed. -/
theorem preventDefault_before_lookup (doc : List Elem) (a : Anchor) (e : ClickEvent)
    (h : querySelectorIdx doc a.href = none) :
    anchorClick doc a e = .threw { defaultPrevented := true } := by
  simp [anchorClick, h]

/-- Witness for C9: clicking `#missing` on a page without such an id. -/
theorem preventDefault_before_lookup_witness :
    querySelectorIdx navDoc "#missing" = none ∧
    anchorClick navDoc { href := "#missing" } { defaultPrevented := false } =
      .threw { defaultPrevented := true } :=
  ⟨by decide, preventDefault_before_lookup navDoc { href := "#missing" }
    { defaultPrevented := false } (by decide)⟩

/-- C3: clicking an anchor whose fragment target resolves to no element
makes the script's listener throw (it is reported as the first, `true`
flag), and dispatch still runs every remaining registered listener, from
the state the throwing listener left behind; every listener produces
exactly one outcome flag. -/
theorem anchor_unresolved_error_isolated (p : PageState) (e : ClickEvent) (a : Anchor)
    (rest : List Listener) (h : querySelectorIdx p.doc a.href = none) :
    (dispatch (.anchorSmooth a :: rest) (p, e)).2 =
      true :: (dispatch rest (p, { defaultPrevented := true })).2 ∧
    (dispatch (.anchorSmooth a :: rest) (p, e)).1 =
      (dispatch rest (p, { defaultPrevented := true })).1 ∧
    (dispatch (.anchorSmooth a :: rest) (p, e)).2.length = rest.length + 1 := by
  have hrun : runListener (.anchorSmooth a) (p, e) =
      ((p, { defaultPrevented := true }), true) := by
    simp [runListener, anchorClick, h]
  refine ⟨?_, ?_, ?_⟩
  · simp [dispatch, hrun]
  · simp [dispatch, hrun]
  · simp [dispatch, hrun, dispatch_length]

theorem notifyAt_of_lt (i : Nat) (r : ℚ) (doc : List Elem)
    (h : observerOptions.threshold < r) :
    notifyAt i r doc = updateAt i revealTarget doc := by
  simp [notifyAt, h, observerCallback, observerStep]

theorem notifyAt_of_not_lt (i : Nat) (r : ℚ) (doc : List Elem)
    (h : ¬ observerOptions.threshold < r) :
    notifyAt i r doc = doc := by
  simp [notifyAt, h]

/-- C2: for any observed element, an intersection notification whose
fraction exceeds the `0.1` threshold transitions it to opacity `1` and
zero vertical offset, and any subsequent notification (any fraction)
leaves the whole document unchanged: applying the reveal transition twice
equals applying it once. -/
theorem reveal_first_then_idempotent (doc : List Elem) (i : Nat) (r r' : ℚ)
    (hi : i < doc.length) (hr : observerOptions.threshold < r) :
    ((notifyAt i r doc).getD i default).style.opacity = some "1" ∧
    ((notifyAt i r doc).getD i default).style.transform = some "translateY(0)" ∧
    notifyAt i r' (notifyAt i r doc) = notifyAt i r doc := by
  have hred : notifyAt i r doc = updateAt i revealTarget doc := notifyAt_of_lt i r doc hr
  have hupd : (notifyAt i r doc).getD i default = revealTarget (doc.getD i default) := by
    rw [hred, getD_updateAt_eq i revealTarget doc default hi]
  refine ⟨by rw [hupd]; rfl, by rw [hupd]; rfl, ?_⟩
  by_cases hr' : observerOptions.threshold < r'
  · rw [notifyAt_of_lt i r' _ hr', hred, updateAt_updateAt]
    have hfun : (fun e => revealTarget (revealTarget e)) = revealTarget :=
      funext revealTarget_idem
    rw [hfun]
  · exact notifyAt_of_not_lt i r' _ hr'

/-- Witness for C2 on the concrete hidden `glass-card` page, with a first
fraction of `1/2` and a second notification at fraction `3/4`. -/
theorem reveal_first_then_idempotent_witness :
    0 < (initAnimated cardDoc).length ∧
    observerOptions.threshold < (1 : ℚ)/2 ∧
    (((notifyAt 0 (1/2) (initAnimated cardDoc)).getD 0 default).style.opacity = some "1" ∧
     ((notifyAt 0 (1/2) (initAnimated cardDoc)).getD 0 default).style.transform =
       some "translateY(0)" ∧
     notifyAt 0 (3/4) (notifyAt 0 (1/2) (initAnimated cardDoc)) =
       notifyAt 0 (1/2) (initAnimated cardDoc)) :=
  ⟨by decide, by norm_num [observerOptions],
   reveal_first_then_idempotent (initAnimated cardDoc) 0 (1/2) (3/4) (by decide)
     (by norm_num [observerOptions])⟩

/-- C7: every element matching one of the three observed categories is set
to opacity `0`, a `20px` vertical offset, and the armed transition by the
synchronous load-time loop, and is among the observed indices — i.e.
before any intersection notification can be delivered for it. -/
theorem animated_initial_hidden (doc : List Elem) (i : Nat)
    (hi : i < doc.length) (hm : animatedMatch (doc.getD i default) = true) :
    ((runScript true doc).doc.getD i default).style.opacity = some "0" ∧
    ((runScript true doc).doc.getD i default).style.transform = some "translateY(20px)" ∧
    ((runScript true doc).doc.getD i default).style.transition =
      some "opacity 0.6s ease-out, transform 0.6s ease-out" ∧
    i ∈ (runScript true doc).observed := by
  have hdoc : (runScript true doc).doc = initAnimated doc := rfl
  have hobs : (runScript true doc).observed = observedIndices doc := rfl
  have hget : (initAnimated doc).getD i default = initHidden (doc.getD i default) := by
    unfold initAnimated
    rw [getD_map _ doc i default hi]
    simp only [hm, if_true]
  refine ⟨?_, ?_, ?_, ?_⟩
  · rw [hdoc, hget]; rfl
  · rw [hdoc, hget]; rfl
  · rw [hdoc, hget]; rfl
  · rw [hobs]
    unfold observedIndices
    rw [List.mem_filter]
    exact ⟨List.mem_range.mpr hi, hm⟩

/-- Witness for C7 on the one-card page. -/
theorem animated_initial_hidden_witness :
    0 < cardDoc.length ∧
    animatedMatch (cardDoc.getD 0 default) = true ∧
    (((runScript true cardDoc).doc.getD 0 default).style.opacity = some "0" ∧
     ((runScript true cardDoc).doc.getD 0 default).style.transform = some "translateY(20px)" ∧
     ((runScript true cardDoc).doc.getD 0 default).style.transition =
       some "opacity 0.6s ease-out, transform 0.6s ease-out" ∧
     0 ∈ (runScript true cardDoc).observed) :=
  ⟨by decide, by decide,
   animated_initial_hidden cardDoc 0 (by decide) (by decide)⟩

theorem observerStep_keeps_shown (doc : List Elem) (e : IntersectionEntry) (i : Nat)
    (h1 : (doc.getD i default).style.opacity = some "1")
    (h2 : (doc.getD i default).style.transform = some "translateY(0)") :
    ((observerStep doc e).getD i default).style.opacity = some "1" ∧
    ((observerStep doc e).getD i default).style.transform = some "translateY(0)" := by
  unfold observerStep
  split
  · by_cases ht : e.target = i
    · subst ht
      by_cases hlen : e.target < doc.length
      · rw [getD_updateAt_eq _ _ _ _ hlen]
        exact ⟨rfl, rfl⟩
      · rw [updateAt_of_ge _ _ _ (Nat.le_of_not_lt hlen)]
        exact ⟨h1, h2⟩
    · rw [getD_updateAt_ne _ _ _ _ _ ht]
      exact ⟨h1, h2⟩
  · exact ⟨h1, h2⟩

/-- C8: the reveal transition is terminal: once an element shows opacity
`1` and zero offset, no later sequence of intersection entries — leave
events included — ever resets its opacity or restores its offset. -/
theorem visible_is_terminal (doc : List Elem) (entries : List IntersectionEntry) (i : Nat)
    (h1 : (doc.getD i default).style.opacity = some "1")
    (h2 : (doc.getD i default).style.transform = some "translateY(0)") :
    ((observerCallback entries doc).getD i default).style.opacity = some "1" ∧
    ((observerCallback entries doc).getD i default).style.transform = some "translateY(0)" := by
  induction entries generalizing doc with
  | nil => exact ⟨h1, h2⟩
  | cons e es ih =>
    have hstep := observerStep_keeps_shown doc e i h1 h2
    exact ih (observerStep doc e) hstep.1 hstep.2

/-- Witness for C8: a revealed card, hit by a leave event and a re-entry
event, keeps opacity `1` and zero offset. -/
theorem visible_is_terminal_witness :
    (((notifyAt 0 (1/2) (initAnimated cardDoc)).getD 0 default).style.opacity = some "1" ∧
     ((notifyAt 0 (1/2) (initAnimated cardDoc)).getD 0 default).style.transform =
       some "translateY(0)") ∧
    (((observerCallback
        [{ isIntersecting := false, fraction := 0, target := 0 },
         { isIntersecting := true, fraction := 1, target := 0 }]
        (notifyAt 0 (1/2) (initAnimated cardDoc))).getD 0 default).style.opacity = some "1" ∧
     ((observerCallback
        [{ isIntersecting := false, fraction := 0, target := 0 },
         { isIntersecting := true, fraction := 1, target := 0 }]
        (notifyAt 0 (1/2) (initAnimated cardDoc))).getD 0 default).style.transform =
       some "translateY(0)") := by
  have hbase : ((notifyAt 0 (1/2) (initAnimated cardDoc)).getD 0 default).style.opacity =
      some "1" ∧
      ((notifyAt 0 (1/2) (initAnimated cardDoc)).getD 0 default).style.transform =
      some "translateY(0)" := by
    constructor
    · rw [notifyAt_of_lt 0 (1/2) _ (by norm_num [observerOptions])]
      decide
    · rw [notifyAt_of_lt 0 (1/2) _ (by norm_num [observerOptions])]
      decide
  exact ⟨hbase, visible_is_terminal _ _ 0 hbase.1 hbase.2⟩

/-- Witness for C3: clicking `#missing` on the one-section page, with one
unrelated listener registered after the script's handler. -/
theorem anchor_unresolved_error_isolated_witness :
    querySelectorIdx ({ doc := navDoc } : PageState).doc "#missing" = none ∧
    ((dispatch (.anchorSmooth { href := "#missing" } :: [.custom (fun s => s)])
        ({ doc := navDoc }, { defaultPrevented := false })).2 =
      true :: (dispatch [.custom (fun s => s)]
        ({ doc := navDoc }, { defaultPrevented := true })).2 ∧
     (dispatch (.anchorSmooth { href := "#missing" } :: [.custom (fun s => s)])
        ({ doc := navDoc }, { defaultPrevented := false })).1 =
      (dispatch [.custom (fun s => s)]
        ({ doc := navDoc }, { defaultPrevented := true })).1 ∧
     (dispatch (.anchorSmooth { href := "#missing" } :: [.custom (fun s => s)])
        ({ doc := navDoc }, { defaultPrevented := false })).2.length =
       [Listener.custom (fun s => s)].length + 1) :=
  ⟨by decide, anchor_unresolved_error_isolated { doc := navDoc } { defaultPrevented := false }
    { href := "#missing" } [.custom (fun s => s)] (by decide)⟩
